import Mathlib

/-!
Shallow embedding of the PV string-sizing engine (`pv_core.py`) of the
repository `calculo_numero_modulos`, together with theorems settling the
specification claims about it.

Python floats are modelled as rationals (ℚ); Python ints as ℤ (or ℕ where
the source guarantees non-negativity); the `math.nan` sentinel of
`required_pv_power_wp` is modelled as `Option.none`; a Python exception is
modelled by an `Option.none` result of the enclosing function.
-/

namespace PvCore

/-- `Inverter` dataclass (pv_core.py lines 6-14). -/
structure Inverter where
  name : String
  mppt_min_v : ℚ
  mppt_max_v : ℚ
  vdc_max : ℚ
  imax_mppt : ℚ
  iscmax_mppt : ℚ
  n_mppt : ℤ
deriving Repr, DecidableEq

/-- `Module` dataclass (pv_core.py lines 16-26).  Note: the source keeps only
the β (Voc) temperature coefficient; γ and α were removed from the model
(comment on line 25). -/
structure Module where
  name : String
  wp : ℚ
  vmp : ℚ
  imp : ℚ
  voc : ℚ
  isc : ℚ
  max_system_v : ℚ
  beta_voc_pct_per_C : ℚ
deriving Repr, DecidableEq

/-- `energy_daily_from_monthly_kwh` (lines 28-29). -/
def energy_daily_from_monthly_kwh (kwh_month : ℚ) (days_per_month : ℚ) : ℚ :=
  (kwh_month * 1000) / days_per_month

/-- `required_pv_power_wp` (lines 31-34).  `none` models the `math.nan`
sentinel returned when `HSP <= 0 or PR <= 0`. -/
def required_pv_power_wp (E_daily_Wh HSP PR : ℚ) : Option ℚ :=
  if HSP ≤ 0 ∨ PR ≤ 0 then none
  else some (E_daily_Wh / (HSP * PR))

/-- `temp_adjust` (lines 36-37). -/
def temp_adjust (value_stc coeff_pct_per_C delta_T : ℚ) : ℚ :=
  value_stc * (1 + (coeff_pct_per_C / 100) * delta_T)

/-- Result record of `module_at_temps` (the returned dict). -/
structure ModuleTemps where
  vmp_hot : ℚ
  voc_cold : ℚ
  isc_cold : ℚ
deriving Repr, DecidableEq

/-- `module_at_temps` (lines 39-45).  Per the source's explicit decision,
Vmp and Isc stay at STC (no γ/α adjustment); only Voc is derated with β at
`delta_cold = T_amb_cold - 25`. -/
def module_at_temps (mod : Module) (_T_cell_hot T_amb_cold : ℚ) : ModuleTemps :=
  let delta_cold := T_amb_cold - 25
  { vmp_hot := mod.vmp
    voc_cold := temp_adjust mod.voc mod.beta_voc_pct_per_C delta_cold
    isc_cold := mod.isc }

/-- The five boolean checks of `check_string` (the `checks` dict). -/
structure Checks where
  mppt_min_ok : Bool
  mppt_max_ok : Bool
  vdc_max_ok : Bool
  imax_ok : Bool
  iscmax_ok : Bool
deriving Repr, DecidableEq

/-- Result record of `check_string` (the returned dict, lines 64-75). -/
structure CheckResult where
  n_series : ℤ
  n_parallel : ℤ
  vmp_hot_string_V : ℚ
  voc_cold_string_V : ℚ
  imp_string_A : ℚ
  isc_cold_total_A : ℚ
  imp_total_A : ℚ
  checks : Checks
  is_compatible : Bool
  temps : ModuleTemps
deriving Repr, DecidableEq

/-- `check_string` (lines 47-75). -/
def check_string (n_series n_parallel : ℤ) (mod : Module) (inv : Inverter)
    (T_cell_hot T_amb_cold : ℚ) : CheckResult :=
  let temps := module_at_temps mod T_cell_hot T_amb_cold
  let vmp_hot_str := (n_series : ℚ) * temps.vmp_hot
  let voc_cold_str := (n_series : ℚ) * temps.voc_cold
  let imp_str := mod.imp
  let isc_total := (n_parallel : ℚ) * temps.isc_cold
  let imp_total := (n_parallel : ℚ) * imp_str
  let checks : Checks :=
    { mppt_min_ok := decide (vmp_hot_str ≥ inv.mppt_min_v)
      mppt_max_ok := if inv.mppt_max_v > 0 then decide (vmp_hot_str ≤ inv.mppt_max_v) else true
      vdc_max_ok := decide (voc_cold_str ≤ min inv.vdc_max mod.max_system_v)
      imax_ok := decide (imp_total ≤ inv.imax_mppt)
      iscmax_ok := decide (isc_total ≤ inv.iscmax_mppt)
    }
  { n_series := n_series
    n_parallel := n_parallel
    vmp_hot_string_V := vmp_hot_str
    voc_cold_string_V := voc_cold_str
    imp_string_A := imp_str
    isc_cold_total_A := isc_total
    imp_total_A := imp_total
    checks := checks
    is_compatible := checks.mppt_min_ok && checks.mppt_max_ok && checks.vdc_max_ok
      && checks.imax_ok && checks.iscmax_ok
    temps := temps }

/-- `estimate_production_kwh_day` (lines 77-78). -/
def estimate_production_kwh_day (total_wp HSP PR : ℚ) : ℚ :=
  (total_wp / 1000) * HSP * PR

/-- Result record of `suggest_series_range` (lines 89-97). -/
structure SeriesRange where
  min_series : ℤ
  max_series_vlimit : ℤ
  vlimit_used : ℚ
  max_series_mppt : ℤ
  max_series : ℤ
  vmp_hot_mod : ℚ
  voc_cold_mod : ℚ
deriving Repr, DecidableEq

/-- `suggest_series_range` (lines 80-97). -/
def suggest_series_range (mod : Module) (inv : Inverter)
    (T_cell_hot T_amb_cold : ℚ) : SeriesRange :=
  let temps := module_at_temps mod T_cell_hot T_amb_cold
  let vmp_hot_mod := temps.vmp_hot
  let voc_cold_mod := temps.voc_cold
  let min_series : ℤ := if vmp_hot_mod > 0 then ⌈inv.mppt_min_v / vmp_hot_mod⌉ else 1
  let vlimit := min inv.vdc_max mod.max_system_v
  let max_series_vlimit : ℤ := if voc_cold_mod > 0 then ⌊vlimit / voc_cold_mod⌋ else 999
  let max_series_mppt : ℤ :=
    if inv.mppt_max_v > 0 ∧ vmp_hot_mod > 0 then ⌊inv.mppt_max_v / vmp_hot_mod⌋ else 999
  { min_series := max min_series 1
    max_series_vlimit := max_series_vlimit
    vlimit_used := vlimit
    max_series_mppt := max_series_mppt
    max_series := min max_series_vlimit max_series_mppt
    vmp_hot_mod := vmp_hot_mod
    voc_cold_mod := voc_cold_mod }

/-- First pass of `plan_distribution` (lines 102-105): walk the channels in
order, give each `min(1, remain)` strings, stop when nothing remains. -/
def round1 : List ℕ → ℕ → List ℕ × ℕ
  | [], remain => ([], remain)
  | d :: ds, remain =>
    if remain = 0 then (d :: ds, remain)
    else
      let give := min 1 remain
      let (ds', r') := round1 ds (remain - give)
      (give :: ds', r')

/-- One inner `for` pass of the `while` loop of `plan_distribution`
(lines 108-112): walk the channels in order, increment each channel whose
count is below both `level` and `max_parallel_per_mppt`, stop when nothing
remains. -/
def levelPass (level maxPar : ℤ) : List ℕ → ℕ → List ℕ × ℕ
  | [], remain => ([], remain)
  | d :: ds, remain =>
    if remain = 0 then (d :: ds, remain)
    else if (d : ℤ) < level ∧ (d : ℤ) < maxPar then
      let (ds', r') := levelPass level maxPar ds (remain - 1)
      ((d + 1) :: ds', r')
    else
      let (ds', r') := levelPass level maxPar ds remain
      (d :: ds', r')

/-- The `while remain > 0 and level <= max_parallel_per_mppt` loop of
`plan_distribution` (lines 106-113).  The loop runs while
`remain > 0 ∧ level ≤ maxPar` and increments `level` each iteration, so the
number of iterations still to run is bounded by `(maxPar + 1 - level).toNat`;
that bound is passed as structural `fuel` (it is `0` exactly when
`level > maxPar`, the loop's exit test on `level`). -/
def levelLoop (maxPar : ℤ) : ℕ → ℤ → List ℕ → ℕ → List ℕ × ℕ
  | 0, _, dist, remain => (dist, remain)
  | fuel + 1, level, dist, remain =>
    if 0 < remain then
      let (d', r') := levelPass level maxPar dist remain
      levelLoop maxPar fuel (level + 1) d' r'
    else (dist, remain)

/-- `plan_distribution` (lines 99-114).  `[0]*n_mppt` is
`List.replicate n_mppt.toNat 0` (a negative count gives an empty list, as in
Python); `remain` starts at `max(0, required_strings)`, i.e.
`required_strings.toNat`; the `while` loop starts at `level = 2`, so its
fuel is `(maxPar + 1 - 2).toNat = (maxPar - 1).toNat`. -/
def plan_distribution (required_strings : ℤ) (n_mppt : ℤ)
    (max_parallel_per_mppt : ℤ) : List ℕ × ℕ :=
  let dist := List.replicate n_mppt.toNat 0
  let remain := required_strings.toNat
  let (d1, r1) := round1 dist remain
  levelLoop max_parallel_per_mppt (max_parallel_per_mppt - 1).toNat 2 d1 r1

/-- `format_checks_labels` (lines 116-123). -/
def format_checks_labels : List (String × String) :=
  [("mppt_min_ok", "Vmp_string ≥ Vmppt_min"),
   ("mppt_max_ok", "Vmp_string ≤ Vmppt_max"),
   ("vdc_max_ok", "Voc_cold(string) ≤ min(Vdc_max inv, Vsys_max mod)"),
   ("imax_ok", "I_operación_total ≤ Imax_MPPT"),
   ("iscmax_ok", "Isc_total ≤ Iscmax_MPPT")]

/-- Result record of `inverter_sizing_from_pdc` (lines 132-140). -/
structure Sizing where
  pdc_kw : ℚ
  ac_target_kw : ℚ
  ac_min_kw : ℚ
  ac_max_kw : ℚ
  dc_ac_target : ℚ
  dc_ac_min : ℚ
  dc_ac_max : ℚ
deriving Repr, DecidableEq

/-- `inverter_sizing_from_pdc` (lines 125-140).  The Python defaults
`dc_ac_target=1.20, dc_ac_min=1.10, dc_ac_max=1.30` are passed explicitly by
callers here. -/
def inverter_sizing_from_pdc (Pdc_wp dc_ac_target dc_ac_min dc_ac_max : ℚ) :
    Sizing :=
  let pdc_kw := max Pdc_wp 0 / 1000
  { pdc_kw := pdc_kw
    ac_target_kw := if dc_ac_target > 0 then pdc_kw / dc_ac_target else pdc_kw
    ac_min_kw := if dc_ac_max > 0 then pdc_kw / dc_ac_max else pdc_kw
    ac_max_kw := if dc_ac_min > 0 then pdc_kw / dc_ac_min else pdc_kw
    dc_ac_target := dc_ac_target
    dc_ac_min := dc_ac_min
    dc_ac_max := dc_ac_max }

/-- A Python value as it may appear in the `payload` dict of
`compute_report`.  Only the shapes relevant to the payload interface are
modelled: `None`, booleans, ints, floats (as rationals) and strings. -/
inductive PyVal where
  | pyNone
  | pyBool (b : Bool)
  | pyInt (n : ℤ)
  | pyFloat (q : ℚ)
  | pyStr (s : String)
deriving Repr, DecidableEq

/-- The numeric value of a Python number, if the value is one: Python `==`
identifies `True` with `1`, `False` with `0`, and ints with equal floats. -/
def pyNum? : PyVal → Option ℚ
  | .pyBool b => some (if b then 1 else 0)
  | .pyInt n => some (n : ℚ)
  | .pyFloat q => some q
  | _ => none

/-- Python `==` on payload values: numbers compare numerically across
`bool`/`int`/`float`, strings compare as strings, `None` equals only
`None`, and everything else is unequal. -/
def pyEq (v w : PyVal) : Bool :=
  match pyNum? v, pyNum? w with
  | some a, some b => decide (a = b)
  | _, _ =>
    match v, w with
    | .pyStr s, .pyStr t => decide (s = t)
    | .pyNone, .pyNone => true
    | _, _ => false

/-- Line 183: `payload.get("auto_series") in ("on", True, "true", "1", 1)`.
Python tuple membership tests each element with `==`. -/
def auto_series_of (v : PyVal) : Bool :=
  pyEq v (.pyStr "on") || pyEq v (.pyBool true) || pyEq v (.pyStr "true")
    || pyEq v (.pyStr "1") || pyEq v (.pyInt 1)

/-- The `payload` dict consumed by `compute_report` (lines 142-186): every
field the function reads, `none` meaning the key is absent (`payload.get`
returns `None`).  Numeric fields are modelled already coerced to their
target type (`float(...)` → ℚ, `int(...)` → ℤ); the `auto_series` field is
kept as a raw Python value because the source compares it against values of
three different types. -/
structure Payload where
  kwh_month : Option ℚ := none
  wh_day : Option ℚ := none
  days : Option ℚ := none
  HSP : Option ℚ := none
  PR : Option ℚ := none
  T_amb_min : Option ℚ := none
  T_cell_hot : Option ℚ := none
  dc_ac_target : Option ℚ := none
  inv_ac_kw : Option ℚ := none
  inv_name : Option String := none
  mppt_min : Option ℚ := none
  mppt_max : Option ℚ := none
  vdc_max : Option ℚ := none
  imax : Option ℚ := none
  iscmax : Option ℚ := none
  n_mppt : Option ℤ := none
  mod_name : Option String := none
  wp : Option ℚ := none
  vmp : Option ℚ := none
  imp : Option ℚ := none
  voc : Option ℚ := none
  isc : Option ℚ := none
  max_sys_v : Option ℚ := none
  beta : Option ℚ := none
  auto_series : PyVal := .pyNone
  n_series : Option ℤ := none
  n_parallel : Option ℤ := none
  mppts_used : Option ℤ := none
deriving Repr, DecidableEq

/-- `float(payload.get(key) or default)` on a numeric field: an absent key
and a falsy value (`0`) both yield the default. -/
def numOr (o : Option ℚ) (d : ℚ) : ℚ :=
  match o with
  | none => d
  | some v => if v = 0 then d else v

/-- `int(payload.get(key) or default)` on an integer field. -/
def intOr (o : Option ℤ) (d : ℤ) : ℤ :=
  match o with
  | none => d
  | some v => if v = 0 then d else v

/-- `payload.get(key) or default` on a string field: an absent key and the
empty (falsy) string both yield the default. -/
def strOr (o : Option String) (d : String) : String :=
  match o with
  | none => d
  | some s => if s = "" then d else s

/-- The `inputs` record of the report (lines 246-262). -/
structure ReportInputs where
  kwh_month : ℚ
  wh_day : ℚ
  days : ℚ
  HSP : ℚ
  PR : ℚ
  T_amb_min : ℚ
  T_cell_hot : ℚ
  auto_series : Bool
  n_series : ℤ
  n_parallel : ℤ
  mppts_used : ℤ
  inverter : Inverter
  module : Module
  dc_ac_target : ℚ
  inv_ac_kw_input : ℚ
deriving Repr, DecidableEq

/-- The `total` record of the report (lines 266-272). -/
structure Totals where
  strings : ℤ
  wp : ℚ
  prod_day : ℚ
  prod_month : ℚ
  coverage_pct : ℚ
deriving Repr, DecidableEq

/-- The `inv_sizing` record of the report (lines 273-278).  `required` is
`none` exactly when `P_req_wp` is the NaN sentinel, which in Python poisons
every derived sizing number with NaN. -/
structure InvSizing where
  required : Option Sizing
  installed : Sizing
  ratio_installed_vs_inv : Option ℚ
  ratio_status : Option String
deriving Repr, DecidableEq

/-- The shortfall-plan record `recos` (lines 231-243). -/
structure Recos where
  deficit_kwh_day : ℚ
  deficit_kwh_month : ℚ
  strings_req : ℤ
  strings_actual : ℤ
  strings_extra_needed : ℤ
  max_parallel_per_mppt : ℤ
  capacity_total_strings : ℤ
  target_dist : List ℕ
  leftover : ℕ
  prod_day_target : ℚ
  total_wp_target : ℚ
deriving Repr, DecidableEq

/-- The report returned by `compute_report` (lines 245-281).  `recos` is
`none` for the empty dict `{}` of the no-shortfall path. -/
structure Report where
  inputs : ReportInputs
  ranges : SeriesRange
  string_check : CheckResult
  P_req_wp : Option ℚ
  total : Totals
  inv_sizing : InvSizing
  recos : Option Recos
  labels : List (String × String)
deriving Repr, DecidableEq

/-!
The local variables of `compute_report` (lines 142-243) are modelled as one
definition each, named after the source variable; `compute_report` then
assembles them exactly as the source does.
-/

/-- Line 143: `float(payload.get("kwh_month") or 0)` (`0.0` when absent). -/
def resolved_kwh_month (p : Payload) : ℚ := numOr p.kwh_month 0

/-- Line 144: `float(payload.get("wh_day") or 0)` (`0.0` when absent). -/
def resolved_wh_day (p : Payload) : ℚ := numOr p.wh_day 0

/-- Line 145: `float(payload.get("days") or 30.0)`. -/
def resolved_days (p : Payload) : ℚ := numOr p.days 30

/-- Line 146: `float(payload.get("HSP") or 4.0)`. -/
def resolved_HSP (p : Payload) : ℚ := numOr p.HSP 4

/-- Line 147: `float(payload.get("PR") or 0.8)`. -/
def resolved_PR (p : Payload) : ℚ := numOr p.PR (4/5)

/-- Line 148: `float(payload.get("T_amb_min") or 8.0)`. -/
def resolved_T_amb_min (p : Payload) : ℚ := numOr p.T_amb_min 8

/-- Line 149: `float(payload.get("T_cell_hot") or 65.0)`. -/
def resolved_T_cell_hot (p : Payload) : ℚ := numOr p.T_cell_hot 65

/-- Line 152: `float(payload.get("dc_ac_target") or 1.20)`. -/
def resolved_dc_ac_target (p : Payload) : ℚ := numOr p.dc_ac_target (6/5)

/-- Line 153: `float(payload.get("inv_ac_kw") or 0.0)`. -/
def resolved_inv_ac_kw (p : Payload) : ℚ := numOr p.inv_ac_kw 0

/-- Lines 155-160: a positive daily Wh input takes priority; otherwise the
monthly kWh figure is converted. -/
def resolved_E_daily_Wh (p : Payload) : ℚ :=
  if resolved_wh_day p > 0 then resolved_wh_day p
  else energy_daily_from_monthly_kwh (resolved_kwh_month p) (resolved_days p)

/-- Lines 155-160, `kwh_month_calc`. -/
def resolved_kwh_month_calc (p : Payload) : ℚ :=
  if resolved_wh_day p > 0 then resolved_E_daily_Wh p * resolved_days p / 1000
  else resolved_kwh_month p

/-- Lines 162-170: the `Inverter` built from the payload. -/
def resolved_inverter (p : Payload) : Inverter :=
  { name := strOr p.inv_name "Custom Inverter"
    mppt_min_v := numOr p.mppt_min 80
    mppt_max_v := numOr p.mppt_max 550
    vdc_max := numOr p.vdc_max 600
    imax_mppt := numOr p.imax 11
    iscmax_mppt := numOr p.iscmax (69/5)
    n_mppt := intOr p.n_mppt 2 }

/-- Lines 172-181: the `Module` built from the payload. -/
def resolved_module (p : Payload) : Module :=
  { name := strOr p.mod_name "Custom Module"
    wp := numOr p.wp 450
    vmp := numOr p.vmp (83/2)
    imp := numOr p.imp (217/20)
    voc := numOr p.voc (493/10)
    isc := numOr p.isc (58/5)
    max_system_v := numOr p.max_sys_v 1000
    beta_voc_pct_per_C := numOr p.beta (-27/100) }

/-- Line 186: `int(payload.get("mppts_used") or 1)`. -/
def resolved_mppts_used (p : Payload) : ℤ := intOr p.mppts_used 1

/-- Line 185: `int(payload.get("n_parallel") or 1)`. -/
def resolved_n_parallel (p : Payload) : ℤ := intOr p.n_parallel 1

/-- Line 188: `P_req_wp = required_pv_power_wp(E_daily_Wh, HSP, PR)`. -/
def resolved_P_req_wp (p : Payload) : Option ℚ :=
  required_pv_power_wp (resolved_E_daily_Wh p) (resolved_HSP p) (resolved_PR p)

/-- Line 189: `rng = suggest_series_range(mod, inv, T_cell_hot, T_amb_min)`. -/
def resolved_rng (p : Payload) : SeriesRange :=
  suggest_series_range (resolved_module p) (resolved_inverter p)
    (resolved_T_cell_hot p) (resolved_T_amb_min p)

/-- Lines 184 and 190-191: `n_series` defaults to 3 and is overridden with
the advisor's `min_series` when the `auto_series` flag is recognized. -/
def resolved_n_series (p : Payload) : ℤ :=
  if auto_series_of p.auto_series then (resolved_rng p).min_series
  else intOr p.n_series 3

/-- Line 195: `total_strings = n_parallel * mppts_used`. -/
def resolved_total_strings (p : Payload) : ℤ :=
  resolved_n_parallel p * resolved_mppts_used p

/-- Line 196: `total_wp = n_series * mod.wp * total_strings`. -/
def resolved_total_wp (p : Payload) : ℚ :=
  (resolved_n_series p : ℚ) * (resolved_module p).wp
    * (resolved_total_strings p : ℚ)

/-- Line 197: `prod_day = estimate_production_kwh_day(total_wp, HSP, PR)`. -/
def resolved_prod_day (p : Payload) : ℚ :=
  estimate_production_kwh_day (resolved_total_wp p) (resolved_HSP p)
    (resolved_PR p)

/-- Line 200: `need_kwh_day = E_daily_Wh / 1000.0`. -/
def resolved_need_kwh_day (p : Payload) : ℚ := resolved_E_daily_Wh p / 1000

/-- Line 201: coverage percentage, `100.0` when the target is zero. -/
def resolved_cobertura_pct (p : Payload) : ℚ :=
  if resolved_need_kwh_day p > 0 then
    resolved_prod_day p / resolved_need_kwh_day p * 100
  else 100

/-- Line 206: installed-DC to inverter-AC ratio, `None` when no inverter AC
rating was supplied. -/
def resolved_ratio (p : Payload) : Option ℚ :=
  if resolved_inv_ac_kw p > 0 then
    some (resolved_total_wp p / 1000 / resolved_inv_ac_kw p)
  else none

/-- Lines 207-214: the ratio verdict string. -/
def resolved_ratio_status (p : Payload) : Option String :=
  (resolved_ratio p).map (fun r =>
    if 11/10 ≤ r ∧ r ≤ 13/10 then "OK"
    else if r < 11/10 then "Bajo (posible subaprovechamiento)"
    else "Alto (posible clipping)")

/-- Lines 218-242: the `recos` record built in the shortfall branch, given
the (non-NaN) required power `preq`. -/
def recos_of (p : Payload) (preq : ℚ) : Recos :=
  let mod := resolved_module p
  let inv := resolved_inverter p
  let deficit_kwh_day := resolved_need_kwh_day p - resolved_prod_day p
  let allowed_by_imp : ℤ := if mod.imp > 0 then ⌊inv.imax_mppt / mod.imp⌋ else 0
  let allowed_by_isc : ℤ := if mod.isc > 0 then ⌊inv.iscmax_mppt / mod.isc⌋ else 0
  let max_parallel_per_mppt := max 0 (min allowed_by_imp allowed_by_isc)
  let required_strings : ℤ :=
    ⌈preq / max (1/1000000000) ((resolved_n_series p : ℚ) * mod.wp)⌉
  let pd := plan_distribution required_strings inv.n_mppt max_parallel_per_mppt
  let total_wp_target := (resolved_n_series p : ℚ) * mod.wp * (pd.1.sum : ℚ)
  { deficit_kwh_day := deficit_kwh_day
    deficit_kwh_month := deficit_kwh_day * 30
    strings_req := required_strings
    strings_actual := resolved_total_strings p
    strings_extra_needed := max 0 (required_strings - resolved_total_strings p)
    max_parallel_per_mppt := max_parallel_per_mppt
    capacity_total_strings := inv.n_mppt * max_parallel_per_mppt
    target_dist := pd.1
    leftover := pd.2
    prod_day_target :=
      estimate_production_kwh_day total_wp_target (resolved_HSP p) (resolved_PR p)
    total_wp_target := total_wp_target }

/-- Lines 245-281: the report dict, parameterized by the `recos` record
(`{}` i.e. `none` on the no-shortfall path). -/
def report_base (p : Payload) (recos : Option Recos) : Report :=
  { inputs :=
      { kwh_month := resolved_kwh_month_calc p
        wh_day := resolved_E_daily_Wh p
        days := resolved_days p
        HSP := resolved_HSP p
        PR := resolved_PR p
        T_amb_min := resolved_T_amb_min p
        T_cell_hot := resolved_T_cell_hot p
        auto_series := auto_series_of p.auto_series
        n_series := resolved_n_series p
        n_parallel := resolved_n_parallel p
        mppts_used := resolved_mppts_used p
        inverter := resolved_inverter p
        module := resolved_module p
        dc_ac_target := resolved_dc_ac_target p
        inv_ac_kw_input := resolved_inv_ac_kw p }
    ranges := resolved_rng p
    string_check :=
      check_string (resolved_n_series p) (resolved_n_parallel p)
        (resolved_module p) (resolved_inverter p) (resolved_T_cell_hot p)
        (resolved_T_amb_min p)
    P_req_wp := resolved_P_req_wp p
    total :=
      { strings := resolved_total_strings p
        wp := resolved_total_wp p
        prod_day := resolved_prod_day p
        prod_month := resolved_prod_day p * 30
        coverage_pct := resolved_cobertura_pct p }
    inv_sizing :=
      { required := (resolved_P_req_wp p).map
          (fun q => inverter_sizing_from_pdc q (resolved_dc_ac_target p)
            (11/10) (13/10))
        installed := inverter_sizing_from_pdc (resolved_total_wp p)
          (resolved_dc_ac_target p) (11/10) (13/10)
        ratio_installed_vs_inv := resolved_ratio p
        ratio_status := resolved_ratio_status p }
    recos := recos
    labels := format_checks_labels }

/-- `compute_report` (lines 142-281).  The result is `none` exactly on the
one failure path of the source: when the shortfall branch (line 217) is
taken while `P_req_wp` is NaN (`HSP <= 0 or PR <= 0`), line 223 evaluates
`math.ceil(nan)`, which raises `ValueError`.  Everywhere else the source
returns the report dict, modelled as `some`. -/
def compute_report (p : Payload) : Option Report :=
  if resolved_prod_day p + 1/1000000000 < resolved_need_kwh_day p then
    match resolved_P_req_wp p with
    | none => none
    | some preq => some (report_base p (some (recos_of p preq)))
  else some (report_base p none)

/-- The `iscmax_ok` comparison as the specification claim words it: the
total COLD short-circuit current, `n_parallel` times the module Isc derated
by an α temperature coefficient at `delta_T = T_amb_min - 25`, compared
against `inverter.iscmax_mppt`.  (The source's `Module` carries no α
coefficient at all; this definition exists only to compare the claim's
wording with the code.) -/
def iscmax_ok_claimed (alpha : ℚ) (n_parallel : ℤ) (mod : Module)
    (inv : Inverter) (T_amb_min : ℚ) : Bool :=
  decide ((n_parallel : ℚ) * temp_adjust mod.isc alpha (T_amb_min - 25)
    ≤ inv.iscmax_mppt)

/-! Concrete hardware fixtures used by witness and counterexample
theorems. -/

/-- A concrete module: 500 Wp, Vmp 40 V, Imp 10 A, Voc 50 V, Isc 10 A,
system limit 1000 V, β = -0.27 %/°C. -/
def M0 : Module :=
  { name := "M0", wp := 500, vmp := 40, imp := 10, voc := 50, isc := 10
    max_system_v := 1000, beta_voc_pct_per_C := -27/100 }

/-- A concrete inverter: MPPT window 80-550 V, 600 V ceiling, 25 A limits,
2 MPPT channels. -/
def I0 : Inverter :=
  { name := "I0", mppt_min_v := 80, mppt_max_v := 550, vdc_max := 600
    imax_mppt := 25, iscmax_mppt := 25, n_mppt := 2 }

/-- `I0` with a short-circuit current limit of 9.95 A, between the bare STC
Isc of `M0` (10 A) and its cold α-derated value (9.915 A at α = 0.05 %/°C,
T_amb_min = 8 °C). -/
def I1 : Inverter := { I0 with iscmax_mppt := 199/20 }

/-- A concrete payload for exercising `compute_report`: daily target 1000 Wh,
HSP 5, PR 1, cold ambient 25 °C (so β has no effect), a 50 V / 10 A / 500 Wp
module, a 100-500 V inverter, `auto_series` set to `"on"`, and an explicit
`n_series = 7` that the auto flag overrides. -/
def W : Payload :=
  { wh_day := some 1000, HSP := some 5, PR := some 1, T_amb_min := some 25
    mppt_min := some 100, mppt_max := some 500, vdc_max := some 600
    imax := some 25, iscmax := some 25, n_mppt := some 2
    wp := some 500, vmp := some 50, imp := some 10, voc := some 50
    isc := some 10, max_sys_v := some 1000
    auto_series := .pyStr "on", n_series := some 7, n_parallel := some 1
    mppts_used := some 1 }

/-- The report `compute_report` produces for the payload `W`: production
5 kWh/day against a 1 kWh/day target, so the shortfall plan is empty;
`n_series` is the advisor's `min_series = 2`, not the supplied 7. -/
def W_report : Report :=
  { inputs :=
      { kwh_month := 30, wh_day := 1000, days := 30, HSP := 5, PR := 1
        T_amb_min := 25, T_cell_hot := 65, auto_series := true, n_series := 2
        n_parallel := 1, mppts_used := 1
        inverter :=
          { name := "Custom Inverter", mppt_min_v := 100, mppt_max_v := 500
            vdc_max := 600, imax_mppt := 25, iscmax_mppt := 25, n_mppt := 2 }
        module :=
          { name := "Custom Module", wp := 500, vmp := 50, imp := 10
            voc := 50, isc := 10, max_system_v := 1000
            beta_voc_pct_per_C := -27/100 }
        dc_ac_target := 6/5, inv_ac_kw_input := 0 }
    ranges :=
      { min_series := 2, max_series_vlimit := 12, vlimit_used := 600
        max_series_mppt := 10, max_series := 10, vmp_hot_mod := 50
        voc_cold_mod := 50 }
    string_check :=
      { n_series := 2, n_parallel := 1, vmp_hot_string_V := 100
        voc_cold_string_V := 100, imp_string_A := 10, isc_cold_total_A := 10
        imp_total_A := 10
        checks :=
          { mppt_min_ok := true, mppt_max_ok := true, vdc_max_ok := true
            imax_ok := true, iscmax_ok := true }
        is_compatible := true
        temps := { vmp_hot := 50, voc_cold := 50, isc_cold := 10 } }
    P_req_wp := some 200
    total :=
      { strings := 1, wp := 1000, prod_day := 5, prod_month := 150
        coverage_pct := 500 }
    inv_sizing :=
      { required := some
          { pdc_kw := 1/5, ac_target_kw := 1/6, ac_min_kw := 2/13
            ac_max_kw := 2/11, dc_ac_target := 6/5, dc_ac_min := 11/10
            dc_ac_max := 13/10 }
        installed :=
          { pdc_kw := 1, ac_target_kw := 5/6, ac_min_kw := 10/13
            ac_max_kw := 10/11, dc_ac_target := 6/5, dc_ac_min := 11/10
            dc_ac_max := 13/10 }
        ratio_installed_vs_inv := none, ratio_status := none }
    recos := none
    labels := format_checks_labels }

end PvCore

namespace PvCore

/-- **C9.** Identity at the STC reference temperature: for every value `v`
and coefficient `c`, `temp_adjust v c 0 = v`. -/
theorem claim_C9 : ∀ (v c : ℚ), temp_adjust v c 0 = v := by
  intro v c
  simp [temp_adjust]

/-- **C4.** Greedy fill order on a concrete instance:
`plan_distribution 5 2 3` returns `([3, 2], 0)`, and the first (level-1)
pass over the two fresh channels yields `[1, 1]` with 3 strings remaining,
as the spec's Scenario E describes. -/
theorem claim_C4 :
    plan_distribution 5 2 3 = ([3, 2], 0) ∧
    round1 (List.replicate 2 0) 5 = ([1, 1], 3) := by
  decide

/-- **C1** (failing-input evaluation).  With `required_strings = 1`,
`n_mppt = 1`, `max_parallel_per_mppt = 0`, the claim (and the spec's §4.6
edge case) demand that no channel receive more than 0 strings and the whole
demand be reported as leftover, i.e. `([0], 1)`.  The code's first fill
round (line 104) assigns `min(1, remain)` to each channel without ever
consulting `max_parallel_per_mppt` (only the level-2+ loop checks it, line
110), so it returns `([1], 0)`: one string on a channel whose cap is 0. -/
theorem claim_C1 : plan_distribution 1 1 0 = ([1], 0) := by
  decide

/-- **C5.** `required_pv_power_wp` returns the NaN sentinel (modelled as
`none`) iff `HSP ≤ 0 ∨ PR ≤ 0`, and otherwise returns
`E_daily_Wh / (HSP * PR)`; being a total function, it never raises. -/
theorem claim_C5 : ∀ (E HSP PR : ℚ),
    (required_pv_power_wp E HSP PR = none ↔ HSP ≤ 0 ∨ PR ≤ 0) ∧
    (0 < HSP → 0 < PR →
      required_pv_power_wp E HSP PR = some (E / (HSP * PR))) := by
  intro E HSP PR
  constructor
  · unfold required_pv_power_wp
    split <;> simp_all
  · intro h1 h2
    unfold required_pv_power_wp
    rw [if_neg]
    simp only [not_or, not_le]
    exact ⟨h1, h2⟩

/-- Witness for C5: at `E = 3200 Wh`, `HSP = 4`, `PR = 0.8` the hypotheses
hold and the function returns `3200 / 3.2 = 1000 Wp`. -/
theorem claim_C5_witness : required_pv_power_wp 3200 4 (4/5) = some 1000 := by
  have h := (claim_C5 3200 4 (4/5)).2 (by norm_num) (by norm_num)
  rw [h]
  norm_num

/-- **C7.** `vdc_max_ok` holds iff the cold string open-circuit voltage
(`n_series` times the β-derated Voc at `delta_T = T_amb_cold - 25`) is at
most the minimum of `inverter.vdc_max` and `module.max_system_v`: the
stricter hardware limit is binding. -/
theorem claim_C7 : ∀ (ns np : ℤ) (mod : Module) (inv : Inverter) (Th Tc : ℚ),
    ((check_string ns np mod inv Th Tc).checks.vdc_max_ok = true ↔
      (ns : ℚ) * temp_adjust mod.voc mod.beta_voc_pct_per_C (Tc - 25)
        ≤ min inv.vdc_max mod.max_system_v) := by
  intro ns np mod inv Th Tc
  simp [check_string, module_at_temps]

/-- **C2** (counterexample).  The claim says `iscmax_ok` compares the
α-derated cold Isc; the code compares the bare STC Isc (its `Module` has no
α).  Concretely, with module Isc 10 A, a typical α = +0.05 %/°C,
`T_amb_min = 8 °C` and an inverter limit of 9.95 A, the claimed comparison
(9.915 A ≤ 9.95 A) passes while the code's check (10 A ≤ 9.95 A) fails. -/
theorem claim_C2_counterexample :
    (check_string 1 1 M0 I1 65 8).checks.iscmax_ok = false ∧
    iscmax_ok_claimed (1/20) 1 M0 I1 8 = true := by
  constructor <;>
    norm_num [check_string, module_at_temps, temp_adjust, iscmax_ok_claimed,
      M0, I0, I1]

/-- **C2** (amended).  `iscmax_ok` compares the total short-circuit current
at STC — `n_parallel × module.isc`, with no temperature derating (the
source's `Module` has no α coefficient) — against `inverter.iscmax_mppt`;
consequently the check is independent of both temperature assumptions. -/
theorem claim_C2 : ∀ (ns np : ℤ) (mod : Module) (inv : Inverter) (Th Tc : ℚ),
    ((check_string ns np mod inv Th Tc).checks.iscmax_ok = true ↔
      (np : ℚ) * mod.isc ≤ inv.iscmax_mppt) ∧
    (∀ (Th' Tc' : ℚ), (check_string ns np mod inv Th Tc).checks.iscmax_ok
      = (check_string ns np mod inv Th' Tc').checks.iscmax_ok) := by
  intro ns np mod inv Th Tc
  constructor
  · simp [check_string, module_at_temps]
  · intro Th' Tc'
    simp [check_string, module_at_temps]

/-- **C3.** Round-trip between advisor and checker: for positive per-module
hot Vmp, running `check_string` with `n_series = min_series` from
`suggest_series_range` (same temperatures, any `n_parallel`) reports
`mppt_min_ok = true`. -/
theorem claim_C3 (mod : Module) (inv : Inverter) (Th Tc : ℚ) (np : ℤ)
    (h : 0 < mod.vmp) :
    (check_string (suggest_series_range mod inv Th Tc).min_series np mod inv
      Th Tc).checks.mppt_min_ok = true := by
  have hle : inv.mppt_min_v / mod.vmp
      ≤ ((max ⌈inv.mppt_min_v / mod.vmp⌉ 1 : ℤ) : ℚ) :=
    le_trans (Int.le_ceil _) (by exact_mod_cast le_max_left _ _)
  rw [div_le_iff₀ h] at hle
  push_cast at hle
  simp [check_string, suggest_series_range, module_at_temps, h, hle]

/-- Witness for C3: for the concrete pair `M0`/`I0` (Vmp 40 V > 0,
MPPT min 80 V) the advisor returns `min_series = 2` and the checker accepts
it. -/
theorem claim_C3_witness :
    (0 : ℚ) < M0.vmp ∧
    (check_string (suggest_series_range M0 I0 65 8).min_series 1 M0 I0
      65 8).checks.mppt_min_ok = true :=
  ⟨by norm_num [M0], claim_C3 M0 I0 65 8 1 (by norm_num [M0])⟩

/-- **C8.** Strict monotonicity of `check_string` in the topology counts:
for positive per-module hot Vmp (resp. cold Voc), a larger `n_series` gives
a strictly larger hot string Vmp (resp. cold string Voc); for positive
module Imp (resp. Isc), a larger `n_parallel` gives a strictly larger total
operating (resp. short-circuit) current. -/
theorem claim_C8 (mod : Module) (inv : Inverter) (Th Tc : ℚ)
    (n₁ n₂ q₁ q₂ p s : ℤ) :
    (0 < mod.vmp → n₁ < n₂ →
      (check_string n₁ p mod inv Th Tc).vmp_hot_string_V
        < (check_string n₂ p mod inv Th Tc).vmp_hot_string_V) ∧
    (0 < temp_adjust mod.voc mod.beta_voc_pct_per_C (Tc - 25) → n₁ < n₂ →
      (check_string n₁ p mod inv Th Tc).voc_cold_string_V
        < (check_string n₂ p mod inv Th Tc).voc_cold_string_V) ∧
    (0 < mod.imp → q₁ < q₂ →
      (check_string s q₁ mod inv Th Tc).imp_total_A
        < (check_string s q₂ mod inv Th Tc).imp_total_A) ∧
    (0 < mod.isc → q₁ < q₂ →
      (check_string s q₁ mod inv Th Tc).isc_cold_total_A
        < (check_string s q₂ mod inv Th Tc).isc_cold_total_A) := by
  refine ⟨?_, ?_, ?_, ?_⟩ <;> intro hpos hlt <;>
    simp only [check_string, module_at_temps] <;>
    exact mul_lt_mul_of_pos_right (by exact_mod_cast hlt) hpos

/-- Evaluation of `compute_report` at the concrete payload `W`: shared by
the witnesses of the `compute_report` claims. -/
lemma W_report_eq : compute_report W = some W_report := by
  norm_num [compute_report, report_base, recos_of, resolved_kwh_month,
    resolved_wh_day, resolved_days, resolved_HSP, resolved_PR,
    resolved_T_amb_min, resolved_T_cell_hot, resolved_dc_ac_target,
    resolved_inv_ac_kw, resolved_E_daily_Wh, resolved_kwh_month_calc,
    resolved_inverter, resolved_module, resolved_mppts_used,
    resolved_n_parallel, resolved_P_req_wp, resolved_rng, resolved_n_series,
    resolved_total_strings, resolved_total_wp, resolved_prod_day,
    resolved_need_kwh_day, resolved_cobertura_pct, resolved_ratio,
    resolved_ratio_status, numOr, intOr, strOr, auto_series_of, pyEq, pyNum?,
    required_pv_power_wp, suggest_series_range, check_string, module_at_temps,
    temp_adjust, estimate_production_kwh_day, inverter_sizing_from_pdc,
    energy_daily_from_monthly_kwh, W, W_report]

/-- **C6.** In every report `compute_report` produces, the shortfall plan
`recos` is non-empty exactly when estimated daily production falls short of
the daily target beyond the `1e-9` epsilon
(`prod_day + 1e-9 < need_kwh_day`, with `need_kwh_day = wh_day / 1000`);
when production meets or exceeds the target, `recos` is empty. -/
theorem claim_C6 (p : Payload) (r : Report) (h : compute_report p = some r) :
    (r.recos ≠ none ↔
      r.total.prod_day + 1/1000000000 < r.inputs.wh_day / 1000) := by
  unfold compute_report at h
  split at h
  · rename_i hguard
    split at h
    · exact absurd h (by simp)
    · obtain rfl := Option.some.inj h
      simpa [report_base, resolved_need_kwh_day] using hguard
  · rename_i hguard
    obtain rfl := Option.some.inj h
    simpa [report_base, resolved_need_kwh_day] using hguard

/-- Witness for C6: the payload `W` produces the report `W_report`, whose
production (5 kWh/day) meets the 1 kWh/day target, and whose `recos` is
accordingly empty. -/
theorem claim_C6_witness :
    compute_report W = some W_report ∧
    (W_report.recos ≠ none ↔
      W_report.total.prod_day + 1/1000000000 < W_report.inputs.wh_day / 1000) :=
  ⟨W_report_eq, claim_C6 W W_report W_report_eq⟩

/-- **C10** (counterexample).  The float `1.0` is not one of the five
values the claim lists, so the claim says it must be treated as disabled;
but Python's tuple membership uses `==`, which identifies `1.0` with `True`
and `1`, so the code recognizes `auto_series = 1.0` as enabled.  (The three
truthy strings the claim names are indeed disabled.) -/
theorem claim_C10_counterexample :
    auto_series_of (.pyFloat 1) = true ∧
    (PyVal.pyFloat 1 ∉ [PyVal.pyStr "on", PyVal.pyBool true,
      PyVal.pyStr "true", PyVal.pyStr "1", PyVal.pyInt 1]) ∧
    auto_series_of (.pyStr "yes") = false ∧
    auto_series_of (.pyStr "True") = false ∧
    auto_series_of (.pyStr "ON") = false := by
  refine ⟨by norm_num [auto_series_of, pyEq, pyNum?], by decide, ?_, ?_, ?_⟩ <;>
    decide

/-- **C10** (amended).  The `auto_series` flag is recognized as enabled
exactly when the payload field is `"on"`, `True`, `"true"`, `"1"`, the
integer `1`, or the float `1.0` (Python `==` identifies numbers across
`bool`/`int`/`float`); any other value — in particular the truthy strings
`"yes"`, `"True"`, `"ON"` — is silently treated as disabled.  When enabled,
the reported `n_series` is the advisor's `min_series`; otherwise it is the
supplied or default `n_series`. -/
theorem claim_C10 :
    (∀ v, auto_series_of v = true ↔
      (v = .pyStr "on" ∨ v = .pyBool true ∨ v = .pyStr "true"
        ∨ v = .pyStr "1" ∨ v = .pyInt 1 ∨ v = .pyFloat 1)) ∧
    (∀ (p : Payload) (r : Report), compute_report p = some r →
      r.inputs.n_series =
        if auto_series_of p.auto_series then
          (suggest_series_range r.inputs.module r.inputs.inverter
            r.inputs.T_cell_hot r.inputs.T_amb_min).min_series
        else intOr p.n_series 3) := by
  constructor
  · intro v
    cases v <;> simp [auto_series_of, pyEq, pyNum?]
    tauto
  · intro p r h
    unfold compute_report at h
    split at h
    · split at h
      · exact absurd h (by simp)
      · obtain rfl := Option.some.inj h
        simp [report_base, resolved_n_series, resolved_rng]
    · obtain rfl := Option.some.inj h
      simp [report_base, resolved_n_series, resolved_rng]

/-- Witness for C10's overriding clause: at the payload `W` (auto flag
`"on"`, explicit `n_series = 7`) the produced report carries the advisor's
`min_series`. -/
theorem claim_C10_witness :
    W_report.inputs.n_series =
      if auto_series_of W.auto_series then
        (suggest_series_range W_report.inputs.module W_report.inputs.inverter
          W_report.inputs.T_cell_hot W_report.inputs.T_amb_min).min_series
      else intOr W.n_series 3 :=
  claim_C10.2 W W_report W_report_eq

/-- Witness for C8: all four strict increases at the concrete pair
`M0`/`I0`, going from 1 to 2 modules in series and from 1 to 2 strings in
parallel. -/
theorem claim_C8_witness :
    ((check_string 1 1 M0 I0 65 8).vmp_hot_string_V
      < (check_string 2 1 M0 I0 65 8).vmp_hot_string_V) ∧
    ((check_string 1 1 M0 I0 65 8).voc_cold_string_V
      < (check_string 2 1 M0 I0 65 8).voc_cold_string_V) ∧
    ((check_string 1 1 M0 I0 65 8).imp_total_A
      < (check_string 1 2 M0 I0 65 8).imp_total_A) ∧
    ((check_string 1 1 M0 I0 65 8).isc_cold_total_A
      < (check_string 1 2 M0 I0 65 8).isc_cold_total_A) := by
  obtain ⟨h1, h2, h3, h4⟩ := claim_C8 M0 I0 65 8 1 2 1 2 1 1
  exact ⟨h1 (by norm_num [M0]) (by decide),
    h2 (by norm_num [M0, temp_adjust]) (by decide),
    h3 (by norm_num [M0]) (by decide),
    h4 (by norm_num [M0]) (by decide)⟩

end PvCore
